import Mathlib

/-!
Shallow embedding of the `encode-time` crate (src/lib.rs): the `Et` timestamp
wrapper around `time::Timespec` with its Display/Debug rendering, its serde
key-value structured codec, and its rustc_serialize positional codec.
-/

/-- `time::Timespec`: a seconds/nanoseconds pair. In Rust `sec : i64` and
`nsec : i32`; we model both as `Int` and state machine-width bounds as
hypotheses where they matter. -/
structure Timespec where
  sec : Int
  nsec : Int
deriving DecidableEq, Repr

/-- `Timespec::new(sec, nsec)`. Per the spec, the pair is stored verbatim:
no normalization or validation (spec section 3). -/
def Timespec.new (sec nsec : Int) : Timespec := ⟨sec, nsec⟩

/-- `pub struct Et(Timespec)` — the timestamp wrapper. -/
structure Et where
  ts : Timespec
deriving DecidableEq, Repr

/-- `impl From<Timespec> for Et`: `Et(t)`. -/
def Et.fromTimespec (t : Timespec) : Et := ⟨t⟩

/-- `impl Deref for Et`: `&self.0`. -/
def Et.deref (e : Et) : Timespec := e.ts

/-! ## Display / Debug rendering -/

/-- Hinnant civil-from-days: days since 1970-01-01 to a proleptic Gregorian
(year, month, day), the conversion POSIX `gmtime` performs. All inner
divisions act on nonnegative operands, so Euclidean division matches the
reference algorithm. -/
def civilFromDays (z0 : Int) : Int × Int × Int :=
  let z := z0 + 719468
  let era := z.ediv 146097
  let doe := z.emod 146097
  let yoe := (doe - doe.ediv 1460 + doe.ediv 36524 - doe.ediv 146096).ediv 365
  let y := yoe + era * 400
  let doy := doe - (365 * yoe + yoe.ediv 4 - yoe.ediv 100)
  let mp := (5 * doy + 2).ediv 153
  let d := doy - (153 * mp + 2).ediv 5 + 1
  let m := mp + (if mp < 10 then 3 else -9)
  (y + (if m ≤ 2 then 1 else 0), m, d)

/-- Zero-pad a calendar field to width 2. -/
def pad2 (n : Int) : String := if n < 10 then "0" ++ toString n else toString n

/-- Zero-pad a year to width 4. -/
def pad4 (n : Int) : String :=
  if n < 10 then "000" ++ toString n
  else if n < 100 then "00" ++ toString n
  else if n < 1000 then "0" ++ toString n
  else toString n

/-- `gmtime` can only represent years whose offset from 1900 fits in a C
`int`; outside that range the calendar conversion fails. -/
def gmtimeYearOk (y : Int) : Bool :=
  decide (-2147483648 ≤ y - 1900 ∧ y - 1900 ≤ 2147483647)

/-- Modelled from the spec: the external `time::at_utc` + `time::strftime
("%FT%TZ", ...)` pipeline used by `fmt::Display for Et` (the `time` crate is
a dependency, not part of this repository). Spec section 4.1: the rendering
converts the stored seconds to UTC calendar fields by standard proleptic
Gregorian conversion consistent with POSIX `gmtime`, producing
`YYYY-MM-DDTHH:MM:SSZ` with zero-padded fields, and fails only when the
calendar conversion fails for an out-of-range second value. -/
def strftimeFTZ (sec : Int) : Option String :=
  let days := sec.ediv 86400
  let sod := sec.emod 86400
  let c := civilFromDays days
  if gmtimeYearOk c.1 then
    some (pad4 c.1 ++ "-" ++ pad2 c.2.1 ++ "-" ++ pad2 c.2.2 ++ "T" ++
          pad2 (sod.ediv 3600) ++ ":" ++ pad2 ((sod.emod 3600).ediv 60) ++ ":" ++
          pad2 (sod.emod 60) ++ "Z")
  else none

/-- Outcome of a formatting call: either a rendered string or a panic
(an unrecoverable process abort). -/
inductive FmtOutcome
  | ok (s : String)
  | panicked
deriving DecidableEq, Repr

/-- `impl fmt::Display for Et`:
`write!(f, "{}", time::strftime("%FT%TZ", &time::at_utc(self.0)).unwrap())`.
The `.unwrap()` turns a failed calendar conversion into a panic. Only
`self.0.sec` flows into the rendering; `nsec` is never read. -/
def Et.displayFmt (e : Et) : FmtOutcome :=
  match strftimeFTZ e.ts.sec with
  | some s => .ok s
  | none => .panicked

/-- `impl fmt::Debug for Et`: `fmt::Display::fmt(self, f)` — pure delegation. -/
def Et.debugFmt (e : Et) : FmtOutcome := e.displayFmt

/-! ## serde key-value structured codec -/

/-- The decode errors of the key-value path (serde `de::Error` as used here)
plus the type-mismatch error an integer out of the target width raises. -/
inductive DeError
  | unknownField (name : String)
  | missingField (name : String)
  | invalidType
deriving DecidableEq, Repr

/-- `enum EtField { Sec, NSec }`. -/
inductive EtField
  | Sec
  | NSec
deriving DecidableEq, Repr

/-- `const ET_FIELDS: &[&str] = &["sec", "nsec"]`. -/
def ET_FIELDS : List String := ["sec", "nsec"]

/-- `FieldVisitor::visit_str` inside `serde::Deserialize for EtField`:
`"sec" => Ok(EtField::NSec), "nsec" => Ok(EtField::Sec),
a => Err(unknown_field(a))`. -/
def fieldVisitorVisitStr (value : String) : Except DeError EtField :=
  if value = "sec" then .ok EtField.NSec
  else if value = "nsec" then .ok EtField.Sec
  else .error (.unknownField value)

/-- `EtMapVisitor::visit`: the serialization state machine. State 0 emits
`("sec", self.value.0.sec)`, state 1 emits `("nsec", self.value.0.nsec)`,
any later state signals completion with `None`. Returns the emitted entry
(if any) and the successor state. -/
def etMapVisitorVisit (e : Et) (state : Nat) : Option (String × Int) × Nat :=
  match state with
  | 0 => (some ("sec", e.ts.sec), 1)
  | 1 => (some ("nsec", e.ts.nsec), 2)
  | _ => (none, state)

/-- The serializer driving `EtMapVisitor` until it reports completion
(fuel-bounded loop; three steps always suffice). -/
def etSerializeLoop (e : Et) : Nat → Nat → List (String × Int)
  | 0, _ => []
  | fuel + 1, state =>
    match etMapVisitorVisit e state with
    | (some kv, state') => kv :: etSerializeLoop e fuel state'
    | (none, _) => []

/-- `serde::Serialize for Et`: `serialize_struct("Et", EtMapVisitor { state: 0 })`. -/
def Et.serialize (e : Et) : List (String × Int) := etSerializeLoop e 3 0

/-- Whether an integer value fits in Rust `i32` (what
`visitor.visit_value::<i32>()` requires of a self-describing stream value). -/
def i32Fits (v : Int) : Bool := decide (-2147483648 ≤ v ∧ v < 2147483648)

/-- Whether an integer value fits in Rust `i64`. -/
def i64Fits (v : Int) : Bool :=
  decide (-9223372036854775808 ≤ v ∧ v < 9223372036854775808)

/-- The key loop of `EtVisitor::visit_map`: each entry's key goes through
`EtField`'s deserializer (`fieldVisitorVisitStr`); `EtField::Sec` stores the
value in the `sec` slot (an `i64` read), `EtField::NSec` stores it in the
`nsec` slot (an `i32` read). Returns both accumulator slots once
`visit_key` yields `None` (the entry list is exhausted). -/
def etVisitMapLoop :
    List (String × Int) → Option Int → Option Int →
    Except DeError (Option Int × Option Int)
  | [], secSlot, nsecSlot => .ok (secSlot, nsecSlot)
  | (k, v) :: rest, secSlot, nsecSlot =>
    match fieldVisitorVisitStr k with
    | .error e => .error e
    | .ok EtField.Sec =>
      if i64Fits v then etVisitMapLoop rest (some v) nsecSlot
      else .error .invalidType
    | .ok EtField.NSec =>
      if i32Fits v then etVisitMapLoop rest secSlot (some v)
      else .error .invalidType

/-- `EtVisitor::visit_map` in full: run the key loop, then report
`missing_field("sec")` / `missing_field("nsec")` for an unfilled slot, then
build `Et(Timespec::new(sec, nsec))`. -/
def etVisitMap (entries : List (String × Int)) : Except DeError Et :=
  match etVisitMapLoop entries none none with
  | .error e => .error e
  | .ok (secSlot, nsecSlot) =>
    match secSlot with
    | none => .error (.missingField "sec")
    | some sec =>
      match nsecSlot with
      | none => .error (.missingField "nsec")
      | some nsec => .ok ⟨Timespec.new sec nsec⟩

/-- `serde::Deserialize for Et`: `deserialize_struct("Et", ET_FIELDS, EtVisitor)`
over a self-describing key-value structure. -/
def Et.deserialize (entries : List (String × Int)) : Except DeError Et :=
  etVisitMap entries

/-! ## rustc_serialize positional codec -/

/-- A token of the positional binary stream: a 64-bit or a 32-bit signed
integer, written in the encoder's native integer encoding. -/
inductive BinTok
  | i64 (v : Int)
  | i32 (v : Int)
deriving DecidableEq, Repr

/-- `rustc_serialize::Encodable for Et`: `self.0.sec.encode(s)` (an `i64`)
then `self.0.nsec.encode(s)` (an `i32`), in that fixed order. -/
def Et.encode (e : Et) : List BinTok := [.i64 e.ts.sec, .i32 e.ts.nsec]

/-- Reading one `i64` from the positional stream. -/
def decodeI64 : List BinTok → Except DeError (Int × List BinTok)
  | .i64 v :: rest => .ok (v, rest)
  | _ => .error .invalidType

/-- Reading one `i32` from the positional stream. -/
def decodeI32 : List BinTok → Except DeError (Int × List BinTok)
  | .i32 v :: rest => .ok (v, rest)
  | _ => .error .invalidType

/-- `rustc_serialize::Decodable for Et`: decode an `i64` as `sec`, then an
`i32` as `nsec`, then `Et(Timespec::new(sec, nsec))`. -/
def Et.decode (s : List BinTok) : Except DeError (Et × List BinTok) :=
  match decodeI64 s with
  | .error e => .error e
  | .ok (sec, s1) =>
    match decodeI32 s1 with
    | .error e => .error e
    | .ok (nsec, s2) => .ok (⟨Timespec.new sec nsec⟩, s2)

/-! ## Theorems for the claims -/

/-- C1. The claim states `decode(encode(t)) == t` for the key-value codec.
The code refutes it: the field router sends `"sec"` to the `nsec` slot and
`"nsec"` to the `sec` slot, so decoding the encoding of `(sec = 0, nsec = 1)`
yields the transposed timestamp `(sec = 1, nsec = 0)`, which differs from the
original. -/
theorem kv_roundtrip_swaps_fields :
    Et.deserialize (Et.serialize ⟨⟨0, 1⟩⟩) = .ok ⟨⟨1, 0⟩⟩ ∧
    (⟨⟨1, 0⟩⟩ : Et) ≠ ⟨⟨0, 1⟩⟩ := by
  exact ⟨rfl, by decide⟩

/-- C2. The key-value decode path's name-to-slot routing is inverted relative
to the encode path: encode emits `sec` then `nsec` in the natural order with
the matching values, while the field matcher maps `"sec"` to `EtField::NSec`
(the nanoseconds slot) and `"nsec"` to `EtField::Sec` (the seconds slot), so
decoding `[("sec", 7), ("nsec", 9)]` produces `sec = 9, nsec = 7`. -/
theorem kv_field_routing_inverted :
    (∀ e : Et, Et.serialize e = [("sec", e.ts.sec), ("nsec", e.ts.nsec)]) ∧
    fieldVisitorVisitStr "sec" = .ok EtField.NSec ∧
    fieldVisitorVisitStr "nsec" = .ok EtField.Sec ∧
    Et.deserialize [("sec", 7), ("nsec", 9)] = .ok ⟨⟨9, 7⟩⟩ := by
  exact ⟨fun e => rfl, rfl, rfl, rfl⟩

/-- C3. Positional codec round trip: for every seconds value in `i64` range
and nanoseconds value in `i32` range — including negative seconds and
nanoseconds outside `[0, 1e9)` — encoding writes the 64-bit seconds then the
32-bit nanoseconds in that fixed order, and decoding the encoding restores
the original timestamp exactly. -/
theorem positional_roundtrip (sec nsec : Int)
    (hs1 : -9223372036854775808 ≤ sec) (hs2 : sec < 9223372036854775808)
    (hn1 : -2147483648 ≤ nsec) (hn2 : nsec < 2147483648) :
    Et.encode ⟨⟨sec, nsec⟩⟩ = [BinTok.i64 sec, BinTok.i32 nsec] ∧
    Et.decode (Et.encode ⟨⟨sec, nsec⟩⟩) = .ok (⟨⟨sec, nsec⟩⟩, []) :=
  ⟨rfl, rfl⟩

/-- Witness for C3 at a negative seconds value and a nanoseconds value
outside `[0, 1e9)`. -/
theorem positional_roundtrip_witness :
    Et.decode (Et.encode ⟨⟨-5, 1500000000⟩⟩) = .ok (⟨⟨-5, 1500000000⟩⟩, []) :=
  (positional_roundtrip (-5) 1500000000 (by decide) (by decide)
    (by decide) (by decide)).2

/-- C4. The claim states a failed calendar conversion during textual
rendering surfaces as a recoverable formatting error and is never escalated
to a panic. The code refutes it: `Display::fmt` calls `.unwrap()` on the
`strftime` result, so a seconds value whose UTC year is outside the
representable calendar range (here `2^62`, year about `1.46e11`) makes the
rendering panic instead of returning an error. -/
theorem display_panics_on_out_of_range_seconds :
    Et.displayFmt ⟨⟨4611686018427387904, 0⟩⟩ = FmtOutcome.panicked :=
  rfl

/-- C5. Missing-field decode: a key-value structure containing only the key
`sec` fails with `MissingField` after all keys are consumed (the value lands
in the `nsec` slot, leaving the `sec` slot empty), and symmetrically a
structure containing only `nsec` fails with `MissingField`. -/
theorem kv_missing_field (v w : Int)
    (hv1 : -2147483648 ≤ v) (hv2 : v < 2147483648)
    (hw1 : -9223372036854775808 ≤ w) (hw2 : w < 9223372036854775808) :
    Et.deserialize [("sec", v)] = .error (.missingField "sec") ∧
    Et.deserialize [("nsec", w)] = .error (.missingField "nsec") := by
  have hv : i32Fits v = true := by simp [i32Fits, hv1, hv2]
  have hw : i64Fits w = true := by simp [i64Fits, hw1, hw2]
  constructor
  · simp [Et.deserialize, etVisitMap, etVisitMapLoop, fieldVisitorVisitStr, hv]
  · simp [Et.deserialize, etVisitMap, etVisitMapLoop, fieldVisitorVisitStr, hw]

/-- Witness for C5 at concrete in-range values. -/
theorem kv_missing_field_witness :
    Et.deserialize [("sec", 5)] = .error (.missingField "sec") ∧
    Et.deserialize [("nsec", 7)] = .error (.missingField "nsec") :=
  kv_missing_field 5 7 (by decide) (by decide) (by decide) (by decide)

/-- C6. Unknown-field decode: encountering any key other than `sec` or
`nsec` fails with `UnknownField` naming that key, whatever value and further
entries follow. -/
theorem kv_unknown_field (key : String) (v : Int)
    (rest : List (String × Int))
    (h1 : key ≠ "sec") (h2 : key ≠ "nsec") :
    Et.deserialize ((key, v) :: rest) = .error (.unknownField key) := by
  simp [Et.deserialize, etVisitMap, etVisitMapLoop, fieldVisitorVisitStr, h1, h2]

/-- Witness for C6 at the key `"foo"`. -/
theorem kv_unknown_field_witness :
    Et.deserialize [("foo", 0)] = .error (.unknownField "foo") :=
  kv_unknown_field "foo" 0 [] (by decide) (by decide)

/-- C7. Display format: a timestamp with seconds `1609459200`
(2021-01-01T00:00:00 UTC) renders exactly to `"2021-01-01T00:00:00Z"`, for
every nanoseconds value. -/
theorem display_2021_01_01 (nsec : Int) :
    Et.displayFmt ⟨⟨1609459200, nsec⟩⟩ = .ok "2021-01-01T00:00:00Z" :=
  rfl

/-- C8. Noninterference of nanoseconds on display: two timestamps with the
same seconds field render identically, whatever their nanoseconds fields. -/
theorem display_ignores_nsec (sec n1 n2 : Int) :
    Et.displayFmt ⟨⟨sec, n1⟩⟩ = Et.displayFmt ⟨⟨sec, n2⟩⟩ :=
  rfl

/-- C9. Verbatim storage: constructing `Et` from a `Timespec` performs no
transformation, and dereferencing returns exactly the supplied pair, field
for field — even for out-of-range nanoseconds. -/
theorem et_verbatim_storage (sec nsec : Int) :
    (Et.fromTimespec (Timespec.new sec nsec)).deref = Timespec.new sec nsec ∧
    (Et.fromTimespec (Timespec.new sec nsec)).deref.sec = sec ∧
    (Et.fromTimespec (Timespec.new sec nsec)).deref.nsec = nsec :=
  ⟨rfl, rfl, rfl⟩

/-- C10. Debug delegates to Display: for every timestamp the Debug rendering
equals the Display rendering, so debug output is also the seconds-only
ISO-8601 UTC form, independent of the nanoseconds field. -/
theorem debug_delegates_to_display :
    (∀ e : Et, Et.debugFmt e = Et.displayFmt e) ∧
    (∀ sec n1 n2 : Int, Et.debugFmt ⟨⟨sec, n1⟩⟩ = Et.debugFmt ⟨⟨sec, n2⟩⟩) :=
  ⟨fun _ => rfl, fun _ _ _ => rfl⟩
